import Mathlib

/-
Verification development for the HDFS retention job
(files: main.py, db.py, ssh.py, messaging.py, utils.py).

The Python code is shallowly embedded: JSON-ish runtime values become the
`Value` type, Python dicts become insertion-ordered association lists,
raised exceptions become `Except PyErr`, and the external world (data
store, SMTP server, SSH host, filesystem) is an oracle passed in as an
environment record.  Machine dates are modelled by their proleptic
Gregorian day number (rata die, 1970-01-01 = 0), exactly the arithmetic
`datetime - timedelta(days=k)` performs.
-/

set_option autoImplicit false

namespace HDFSRetention

/-- A Python runtime value as it appears in the loaded JSON config and in
the config objects.  Container contents are abstracted to their size: the
embedded code only ever tests containers for emptiness
(`utils.is_dict_field_missing`) and never reads their elements. -/
inductive Value where
  | none
  | str (s : String)
  | int (n : Int)
  | bool (b : Bool)
  | dict (size : Nat)
  | list (size : Nat)
  | tuple (size : Nat)
deriving Repr, DecidableEq

/-- A raised Python exception, by class and message. -/
inductive PyErr where
  | keyError (k : String)
  | valueError (m : String)
  | typeError (m : String)
  | attributeError (m : String)
  | sqlError (m : String)
  | exc (m : String)
deriving Repr, DecidableEq

/-- str(e) for a raised exception (only the message part is modelled). -/
def errStr : PyErr → String
  | PyErr.keyError k => k
  | PyErr.valueError m => m
  | PyErr.typeError m => m
  | PyErr.attributeError m => m
  | PyErr.sqlError m => m
  | PyErr.exc m => m

/-- Python type name of a value, as used in TypeError messages. -/
def pyTypeName : Value → String
  | Value.none => "NoneType"
  | Value.str _ => "str"
  | Value.int _ => "int"
  | Value.bool _ => "bool"
  | Value.dict _ => "dict"
  | Value.list _ => "list"
  | Value.tuple _ => "tuple"

/-- str(v): how a value renders inside an f-string. -/
def pyStr : Value → String
  | Value.none => "None"
  | Value.str s => s
  | Value.int n => toString n
  | Value.bool b => if b then "True" else "False"
  | Value.dict _ => "<dict>"
  | Value.list _ => "<list>"
  | Value.tuple _ => "<tuple>"

/-- str.lower() for the ASCII strings that occur in feed arguments
(kernel-reducible, unlike the library toLower). -/
def pyLower (s : String) : String :=
  String.mk (s.data.map Char.toLower)

/-- isinstance(v, int): Python bools are instances of int. -/
def isInstInt : Value → Bool
  | Value.int _ => true
  | Value.bool _ => true
  | _ => false

/-- v == 0 under Python equality (int 0 and False compare equal to 0). -/
def pyEqZero : Value → Bool
  | Value.int n => n == 0
  | Value.bool b => !b
  | _ => false

/-- Numeric value of an int-like Python value (int(True) = 1). -/
def toPyInt : Value → Int
  | Value.int n => n
  | Value.bool b => if b then 1 else 0
  | _ => 0

/-! ### Python dicts as insertion-ordered association lists -/

/-- d.get(k): first binding of `k`, or `none`. -/
def lookupD {α : Type} : List (String × α) → String → Option α
  | [], _ => Option.none
  | (k2, v) :: rest, k => if k2 = k then some v else lookupD rest k

/-- d[k]: like `lookupD` but raises KeyError when the key is absent. -/
def indexD {α : Type} (d : List (String × α)) (k : String) : Except PyErr α :=
  match lookupD d k with
  | some v => Except.ok v
  | Option.none => Except.error (PyErr.keyError k)

/-- d[k] = v: replace the first binding in place, else append (Python
dicts keep insertion order and keep the original position on update). -/
def setD {α : Type} : List (String × α) → String → α → List (String × α)
  | [], k, v => [(k, v)]
  | (k2, v2) :: rest, k, v =>
    if k2 = k then (k2, v) :: rest else (k2, v2) :: setD rest k v

/-- d.pop(k): remove the first binding of `k`; KeyError when absent. -/
def popD {α : Type} : List (String × α) → String → Except PyErr (List (String × α))
  | [], k => Except.error (PyErr.keyError k)
  | (k2, v) :: rest, k =>
    if k2 = k then Except.ok rest
    else
      match popD rest k with
      | Except.error e => Except.error e
      | Except.ok r => Except.ok ((k2, v) :: r)

/-- The keys of a dict, in order. -/
def keysOf {α : Type} (d : List (String × α)) : List String := d.map Prod.fst

/-! ### utils.py -/

/-- utils.is_dict_field_missing: `value.get(field) in [None, "", {}, [], ()]`. -/
def is_dict_field_missing (d : List (String × Value)) (field : String) : Bool :=
  match lookupD d field with
  | Option.none => true
  | some Value.none => true
  | some (Value.str s) => s = ""
  | some (Value.dict n) => n = 0
  | some (Value.list n) => n = 0
  | some (Value.tuple n) => n = 0
  | some _ => false

/-! ### Dates

`datetime` arithmetic is modelled on the proleptic Gregorian day number
(days since 1970-01-01).  `daysFromCivil`/`civilFromDays` are the standard
civil-date conversions with floor division. -/

/-- Day number of the civil date y-m-d (1970-01-01 = 0). -/
def daysFromCivil (y m d : Int) : Int :=
  let y2 := if m ≤ 2 then y - 1 else y
  let era := Int.fdiv y2 400
  let yoe := y2 - era * 400
  let mAdj := if m > 2 then m - 3 else m + 9
  let doy := Int.fdiv (153 * mAdj + 2) 5 + d - 1
  let doe := yoe * 365 + Int.fdiv yoe 4 - Int.fdiv yoe 100 + doy
  era * 146097 + doe - 719468

/-- Civil date (y, m, d) of a day number. -/
def civilFromDays (z0 : Int) : Int × Int × Int :=
  let z := z0 + 719468
  let era := Int.fdiv z 146097
  let doe := z - era * 146097
  let yoe := Int.fdiv (doe - Int.fdiv doe 1460 + Int.fdiv doe 36524 - Int.fdiv doe 146096) 365
  let y := yoe + era * 400
  let doy := doe - (365 * yoe + Int.fdiv yoe 4 - Int.fdiv yoe 100)
  let mp := Int.fdiv (5 * doy + 2) 153
  let d := doy - Int.fdiv (153 * mp + 2) 5 + 1
  let m := if mp < 10 then mp + 3 else mp - 9
  (if m ≤ 2 then y + 1 else y, m, d)

/-- int(date.strftime(%Y%m%d)): the 8-digit YYYYMMDD integer of a day
number (for four-digit years). -/
def yyyymmddOfRD (z : Int) : Int :=
  let c := civilFromDays z
  c.1 * 10000 + c.2.1 * 100 + c.2.2

/-- main.py lines 103-105:
`int((today - timedelta(days=r - 1)).strftime(%Y%m%d))`. -/
def removeOnlyBefore (todayRD : Int) (r : Int) : Int :=
  yyyymmddOfRD (todayRD - (r - 1))

/-! ### main.py: validate_feeds_config -/

/-- A feed configuration dict, e.g.
`{Schema: ..., TableName: ..., RetentionPeriodInDays: ..., PartitionedBy: ...}`. -/
abbrev FeedCfg := List (String × Value)

/-- The `data` section: feed name to feed configuration. -/
abbrev DataCfg := List (String × FeedCfg)

/-- The fields checked by the first inner loop of validate_feeds_config. -/
def requiredFields : List String :=
  ["Schema", "TableName", "RetentionPeriodInDays", "PartitionedBy"]

/-- The body of the `for key, value in config.items()` loop of
validate_feeds_config (main.py lines 86-105) for one feed.  Returns the
(possibly updated) feed dict together with the number of times the feed
key was appended to `keys_to_remove`:
* the first inner loop appends once (and breaks) when any required field
  is missing;
* line 95 then unconditionally evaluates `value["RetentionPeriodInDays"]`
  (KeyError when the key is absent) and appends again when it equals 0 or
  is not an int, `continue`-ing past the RemoveOnlyBefore assignment;
* otherwise `config[key][RemoveOnlyBefore]` is set. -/
def validateFeedStep (todayRD : Int) (v : FeedCfg) : Except PyErr (FeedCfg × Nat) :=
  let a1 : Nat := if requiredFields.any (fun f => is_dict_field_missing v f) then 1 else 0
  match lookupD v "RetentionPeriodInDays" with
  | Option.none => Except.error (PyErr.keyError "RetentionPeriodInDays")
  | some rv =>
    if pyEqZero rv || !(isInstInt rv) then
      Except.ok (v, a1 + 1)
    else
      Except.ok (setD v "RemoveOnlyBefore" (Value.int (removeOnlyBefore todayRD (toPyInt rv))), a1)

/-- The whole feed loop: each feed is processed in order by
`validateFeedStep`; `keys_to_remove` collects the key of each feed once
per append, in iteration order. -/
def goValidate (todayRD : Int) : DataCfg → Except PyErr (DataCfg × List String)
  | [] => Except.ok ([], [])
  | (k, v) :: rest =>
    match validateFeedStep todayRD v with
    | Except.error e => Except.error e
    | Except.ok (v2, n) =>
      match goValidate todayRD rest with
      | Except.error e => Except.error e
      | Except.ok (rest2, keys) => Except.ok ((k, v2) :: rest2, List.replicate n k ++ keys)

/-- main.py lines 108-109: `for key in keys_to_remove: config.pop(key)`;
a duplicated key makes the second pop raise KeyError. -/
def doPops {α : Type} : List (String × α) → List String → Except PyErr (List (String × α))
  | d, [] => Except.ok d
  | d, k :: ks =>
    match popD d k with
    | Except.error e => Except.error e
    | Except.ok d2 => doPops d2 ks

/-- validate_feeds_config after the initial feed-argument branch:
run the loop, pop the collected keys, then
`if not config: return False` else `return config.copy()`
(None result encodes the returned False). -/
def validate_core (todayRD : Int) (config : DataCfg) : Except PyErr (Option DataCfg) :=
  match goValidate todayRD config with
  | Except.error e => Except.error e
  | Except.ok (c2, keys) =>
    match doPops c2 keys with
    | Except.error e => Except.error e
    | Except.ok out => if out.isEmpty then Except.ok Option.none else Except.ok (some out)

/-- main.py lines 76-115, validate_feeds_config.  When `args.feed` is not
the literal string "all", the dict is first narrowed to that single feed
(`config = {args.feed: config[args.feed]}`, KeyError when absent). -/
def validate_feeds_config (todayRD : Int) (feedArg : String) (config : DataCfg) :
    Except PyErr (Option DataCfg) :=
  if feedArg = "all" then validate_core todayRD config
  else
    match lookupD config feedArg with
    | some v => validate_core todayRD [(feedArg, v)]
    | Option.none => Except.error (PyErr.keyError feedArg)

/-! ### Config value objects (db.py DBConfig, messaging.py EmailConfig, ssh.py SSHConfig)

`__init__` of each class assigns the private attributes directly, without
going through the property setters, so construction is just a record
literal here.  Field values stay `Value` because the setters perform the
dynamic type checks themselves. -/

/-- db.py DBConfig: defaults from the `__init__` signature
(`query=None` becomes `{}`). -/
structure DBConfig where
  delicate : Value := Value.str "postgresql"
  host : Value := Value.str "localhost"
  port : Value := Value.int 5432
  database : Value := Value.none
  username : Value := Value.none
  password : Value := Value.none
  auth_file : Value := Value.none
  query : Value := Value.dict 0
  stream : Value := Value.bool false
  echo : Value := Value.bool false
deriving Repr, DecidableEq

/-- messaging.py EmailConfig. -/
structure EmailConfig where
  server : Value := Value.str "smtp.gmail.com"
  port : Value := Value.int 587
  username : Value
  password : Value
  default_sender : Value := Value.none
deriving Repr, DecidableEq

/-- ssh.py SSHConfig. -/
structure SSHConfig where
  host : Value := Value.none
  port : Value := Value.int 22
  username : Value := Value.none
  auth_key : Value := Value.none
  password : Value := Value.none
deriving Repr, DecidableEq

/-- db.py lines 73-79, the DBConfig port property setter. -/
def DBConfig.set_port (c : DBConfig) (v : Value) : Except PyErr DBConfig :=
  if v = Value.none then Except.error (PyErr.valueError "Port can not be emtpy or None.")
  else if isInstInt v = false ∨ ¬(0 < toPyInt v ∧ toPyInt v < 65536) then
    Except.error (PyErr.valueError "Port must be an integer between 1 and 65535.")
  else Except.ok { c with port := v }

/-- messaging.py lines 36-42, the EmailConfig port property setter. -/
def EmailConfig.set_port (c : EmailConfig) (v : Value) : Except PyErr EmailConfig :=
  if v = Value.none then Except.error (PyErr.valueError "Port can not be empty or None.")
  else if isInstInt v = false ∨ ¬(0 < toPyInt v ∧ toPyInt v < 65536) then
    Except.error (PyErr.valueError "Port must be an integer between 1 and 65535.")
  else Except.ok { c with port := v }

/-- ssh.py lines 19-23, the SSHConfig host setter: any string is
accepted, anything else raises. -/
def SSHConfig.set_host (c : SSHConfig) (v : Value) : Except PyErr SSHConfig :=
  match v with
  | Value.str _ => Except.ok { c with host := v }
  | _ => Except.error (PyErr.valueError "SSH Host must be a non-empty string.")

/-- ssh.py lines 29-33, the SSHConfig port setter.  The source rejects
only non-ints (no 1..65535 range check) and then executes
`self.__host = port`: the accepted value is stored in the HOST slot and
the port slot is left untouched. -/
def SSHConfig.set_port (c : SSHConfig) (v : Value) : Except PyErr SSHConfig :=
  if isInstInt v then Except.ok { c with host := v }
  else Except.error (PyErr.valueError "SSH Port must be an integer.")

/-- ssh.py lines 39-43, the SSHConfig username setter. -/
def SSHConfig.set_username (c : SSHConfig) (v : Value) : Except PyErr SSHConfig :=
  match v with
  | Value.str _ => Except.ok { c with username := v }
  | _ => Except.error (PyErr.valueError "SSH User must be a non-empty string.")

/-- ssh.py lines 49-57, the SSHConfig auth_key setter.  A non-string
non-None value raises ValueError; None passes the first check but then
`os.path.exists(None)` raises TypeError; for a string the
FileNotFoundError on line 56 is constructed but never raised, so any
string is stored. -/
def SSHConfig.set_auth_key (c : SSHConfig) (v : Value) : Except PyErr SSHConfig :=
  match v with
  | Value.str _ => Except.ok { c with auth_key := v }
  | Value.none => Except.error (PyErr.typeError "stat: path should be string, not NoneType")
  | _ => Except.error (PyErr.valueError "SSH Private Key must be a string or None.")

/-- ssh.py lines 63-67, the SSHConfig password setter. -/
def SSHConfig.set_password (c : SSHConfig) (v : Value) : Except PyErr SSHConfig :=
  match v with
  | Value.none => Except.ok { c with password := v }
  | Value.str _ => Except.ok { c with password := v }
  | _ => Except.error (PyErr.valueError "SSH Password must be a string or None.")

/-- getattr(self, key) on a DBConfig for the property names: the property
GETTER runs and returns the current field value. -/
def DBConfig.getattr (c : DBConfig) : String → Option Value
  | "delicate" => some c.delicate
  | "host" => some c.host
  | "port" => some c.port
  | "database" => some c.database
  | "username" => some c.username
  | "password" => some c.password
  | "auth_file" => some c.auth_file
  | "query" => some c.query
  | "stream" => some c.stream
  | "echo" => some c.echo
  | _ => Option.none

/-- getattr(self, key) on an EmailConfig for the property names. -/
def EmailConfig.getattr (c : EmailConfig) : String → Option Value
  | "server" => some c.server
  | "port" => some c.port
  | "username" => some c.username
  | "password" => some c.password
  | "default_sender" => some c.default_sender
  | _ => Option.none

/-- f(arg) where f is a plain runtime value: none of the `Value` forms
(None, str, int, bool, dict, list, tuple) is callable in Python, so the
call always raises TypeError. -/
def pyCall (f : Value) (_arg : Value) : Except PyErr Value :=
  Except.error (PyErr.typeError (pyTypeName f ++ " object is not callable"))

/-- db.py lines 149-158, DBConfig.update_config.  For a known key the
source runs `getattr(self, setter_method)(value)` where
`setter_method = f"{key}"`: it fetches the property VALUE and calls it,
so the call raises TypeError, which the wrapper turns into
`ValueError(f"Error setting {key}: ...")`.  No field is ever updated.
Unknown keys raise KeyError. -/
def DBConfig.update_config (c : DBConfig) : List (String × Value) → Except PyErr DBConfig
  | [] => Except.ok c
  | (k, val) :: rest =>
    match DBConfig.getattr c k with
    | some attrVal =>
      match pyCall attrVal val with
      | Except.error e => Except.error (PyErr.valueError ("Error setting " ++ k ++ ": " ++ errStr e))
      | Except.ok _ => DBConfig.update_config c rest
    | Option.none => Except.error (PyErr.keyError ("Invalid configuration key: " ++ k))

/-- messaging.py lines 77-86, EmailConfig.update_config: same
`getattr(self, key)(value)` pattern as DBConfig.update_config. -/
def EmailConfig.update_config (c : EmailConfig) : List (String × Value) → Except PyErr EmailConfig
  | [] => Except.ok c
  | (k, val) :: rest =>
    match EmailConfig.getattr c k with
    | some attrVal =>
      match pyCall attrVal val with
      | Except.error e => Except.error (PyErr.valueError ("Error setting " ++ k ++ ": " ++ errStr e))
      | Except.ok _ => EmailConfig.update_config c rest
    | Option.none => Except.error (PyErr.keyError ("Invalid configuration key: " ++ k))

/-- setattr(self, key, value) on an SSHConfig dispatches to the property
setter of that name; `none` means there is no such property. -/
def SSHConfig.setattrF (c : SSHConfig) (k : String) (v : Value) : Option (Except PyErr SSHConfig) :=
  match k with
  | "host" => some (SSHConfig.set_host c v)
  | "port" => some (SSHConfig.set_port c v)
  | "username" => some (SSHConfig.set_username c v)
  | "auth_key" => some (SSHConfig.set_auth_key c v)
  | "password" => some (SSHConfig.set_password c v)
  | _ => Option.none

/-- ssh.py lines 70-75, SSHConfig.update_config: uses real
`setattr`, so the setters do run; setter failures propagate raw
(unwrapped, no field name attached); unknown keys raise KeyError. -/
def SSHConfig.update_config (c : SSHConfig) : List (String × Value) → Except PyErr SSHConfig
  | [] => Except.ok c
  | (k, v) :: rest =>
    match SSHConfig.setattrF c k v with
    | some (Except.error e) => Except.error e
    | some (Except.ok c2) => SSHConfig.update_config c2 rest
    | Option.none => Except.error (PyErr.keyError ("Invalid SSH configuration key: " ++ k))

/-! ### db.py: DBConnection.select / DBConnection.execute

The data store is an oracle mapping each SQL text to an outcome:
success with rows (one integer partition value per row, matching the
single-column SELECT the orchestrator issues), a `sqlalchemy`
SQLAlchemyError, or some other exception. -/

/-- What the data store does with one SQL text. -/
inductive StoreOutcome where
  | ok (rows : List Int)
  | dbError (m : String)
  | otherError (m : String)
deriving Repr

/-- The object `execute` returns: the truthy CursorResult on success or
the literal `False` on a caught SQLAlchemyError. -/
inductive ExecResult where
  | resultObj
  | falseSentinel
deriving Repr, DecidableEq

/-- db.py lines 257-275, DBConnection.select: `pd.read_sql` failures of
any kind are logged and re-raised. -/
def DBConnection.select (store : String → StoreOutcome) (query : String) :
    Except PyErr (List Int) :=
  match store query with
  | StoreOutcome.ok rows => Except.ok rows
  | StoreOutcome.dbError m => Except.error (PyErr.sqlError m)
  | StoreOutcome.otherError m => Except.error (PyErr.exc m)

/-- db.py lines 300-310, DBConnection.execute: a SQLAlchemyError is
caught and turned into the return value `False`; any other exception
propagates; success returns the result object. -/
def DBConnection.execute (store : String → StoreOutcome) (sql : String) :
    Except PyErr ExecResult :=
  match store sql with
  | StoreOutcome.ok _ => Except.ok ExecResult.resultObj
  | StoreOutcome.dbError _ => Except.ok ExecResult.falseSentinel
  | StoreOutcome.otherError m => Except.error (PyErr.exc m)

/-! ### messaging.py: MultiPurposeEmailSender -/

/-- Outcome of the SMTP session in send_email: success, an
`smtplib.SMTPException`, or any other exception. -/
inductive SmtpOutcome where
  | ok
  | smtpError (m : String)
  | otherError (m : String)
deriving Repr, DecidableEq

/-- The sender's external world: file reads for attachments
(`none` = open/read raised) and the SMTP session outcome. -/
structure EmailEnv where
  username : String
  readFile : String → Option String
  smtp : SmtpOutcome

/-- The composed MIME message: body plus the names of the files actually
attached (regular and inline). -/
structure Message where
  sender : String
  recipients : List String
  subject : String
  body : String
  attachments : List String := []
  inlineAtts : List String := []
deriving Repr, DecidableEq

/-- messaging.py lines 132-144, the per-attachment body of _attach_files:
a failed read is logged and skipped, a successful read attaches the
file (to the regular or inline list). -/
def attachOne (env : EmailEnv) (inline : Bool) (msg : Message) (a : String) : Message :=
  match env.readFile a with
  | some _ =>
    if inline then { msg with inlineAtts := msg.inlineAtts ++ [a] }
    else { msg with attachments := msg.attachments ++ [a] }
  | Option.none => msg

/-- messaging.py lines 129-147, _attach_files: skipped entirely when the
attachment list is falsy. -/
def attach_files (env : EmailEnv) (msg : Message) (atts : List String) (inline : Bool) : Message :=
  if atts.isEmpty then msg else atts.foldl (attachOne env inline) msg

/-- messaging.py lines 110-127, _create_message: body, then regular
attachments, then inline attachments. -/
def create_message (env : EmailEnv) (subject body : String) (receivers : List String)
    (atts inl : List String) : Message :=
  let msg : Message :=
    { sender := env.username, recipients := receivers, subject := subject, body := body }
  let msg := attach_files env msg atts false
  attach_files env msg inl true

/-- The SMTP block of send_email (starttls, login, sendmail) before its
except clauses: delivers the message or raises. -/
def smtpSend (env : EmailEnv) (msg : Message) : Except PyErr Message :=
  match env.smtp with
  | SmtpOutcome.ok => Except.ok msg
  | SmtpOutcome.smtpError m => Except.error (PyErr.exc m)
  | SmtpOutcome.otherError m => Except.error (PyErr.exc m)

/-- messaging.py lines 94-108, MultiPurposeEmailSender.send_email: the
message is composed, then the SMTP block runs; both except clauses log
and swallow, so the function returns normally either way (`some msg` =
delivered, `none` = error swallowed). -/
def send_email (env : EmailEnv) (subject body : String) (receivers : List String)
    (atts inl : List String) : Except PyErr (Option Message) :=
  let msg := create_message env subject body receivers atts inl
  match smtpSend env msg with
  | Except.ok m => Except.ok (some m)
  | Except.error _ => Except.ok Option.none

/-! ### main.py: the orchestrator

The top-level config dict maps section names to section payloads; after
validate_configs the `data` entry holds the return value of
validate_feeds_config, which is either a feeds dict or the literal
`False` (encoded `Option DataCfg`). -/

/-- A top-level config entry payload. -/
inductive TopVal where
  | plain (d : List (String × Value))
  | data (d : DataCfg)
  | dataResult (r : Option DataCfg)
deriving Repr, DecidableEq

/-- The loaded JSON config: section name to payload, insertion ordered. -/
abbrev Config := List (String × TopVal)

/-- The run environment: CLI arguments, the clock, and oracles for every
external system main touches (data store, SSH host, the two database
engines, the audit session commits). -/
structure Env where
  test : Bool
  feedArg : String
  todayRD : Int
  store : String → StoreOutcome
  sshOk : Bool
  dataDbOk : Bool
  auditDbOk : Bool
  createOk : Bool
  commitOk : Bool

/-- config['data'] with the dict payload expected by validate_configs. -/
def getDataSection (config : Config) : Except PyErr DataCfg :=
  match indexD config "data" with
  | Except.error e => Except.error e
  | Except.ok (TopVal.data d) => Except.ok d
  | Except.ok _ => Except.error (PyErr.typeError "data section is not a feeds dict")

/-- main.py lines 118-124, validate_configs: when the feed argument is
not (case-insensitively) "all" and is absent from the data section, raise
ValueError; then replace `config['data']` with the validate_feeds_config
result and return the dict. -/
def validate_configs (env : Env) (config : Config) : Except PyErr Config :=
  match getDataSection config with
  | Except.error e => Except.error e
  | Except.ok d =>
    if pyLower env.feedArg ≠ "all" ∧ ¬(d.any (fun p => p.1 = env.feedArg)) then
      Except.error (PyErr.valueError ("Provided feed " ++ env.feedArg ++ " not found in the CONFIG."))
    else
      match validate_feeds_config env.todayRD env.feedArg d with
      | Except.error e => Except.error e
      | Except.ok r => Except.ok (setD config "data" (TopVal.dataResult r))

/-- One per-feed audit row (main.py calculate_audits plus the fields the
loop mutates; the process/host identifiers are outside the model). -/
structure Audit where
  feed : String
  all_removed_before : Value
  removed_count : Option Nat := Option.none
  removed_list : Option (List Int) := Option.none
  alter_status : Option String := Option.none
  run_status : Option String := Option.none
  is_test : Bool
deriving Repr, DecidableEq

/-- Insertion sort, standing in for pandas sort_values on the single
partition column. -/
def insertSorted (x : Int) : List Int → List Int
  | [] => [x]
  | y :: ys => if x ≤ y then x :: y :: ys else y :: insertSorted x ys

/-- Sorted copy of the partition values. -/
def sortInts : List Int → List Int
  | [] => []
  | x :: xs => insertSorted x (sortInts xs)

/-- main.py lines 211-216: the ALTER TABLE ... DROP PARTITION f-string. -/
def mkDropSql (schema table part cutoff : String) : String :=
  " \n            ALTER TABLE " ++ schema ++ "." ++ table ++
  "\n            DROP IF EXISTS PARTITION(\n                " ++ part ++ " < " ++ cutoff ++
  "\n            )\n        "

/-- main.py lines 218-225: the SELECT distinct partitions f-string. -/
def mkSelectSql (part schema table cutoff : String) : String :=
  "\n                SELECT \n                    distinct " ++ part ++
  "\n                from \n                    " ++ schema ++ "." ++ table ++
  "\n                where \n                    " ++ part ++ " < " ++ cutoff ++ "\n            "

/-- Result of processing one feed in the loop (main.py lines 197-261):
`ok` means the loop moves to the next feed (including the
alter-failed `continue` path); `aborted` means an exception was raised
inside the try and re-raised after the finally committed the audit row;
`fatal` means an exception was raised outside the try/finally (audit
insert failure at lines 202-207, or KeyError while building the audit
row or the sql string), so no audit row survives. -/
inductive FeedStep where
  | ok (a : Audit) (execs : List String)
  | aborted (a : Audit) (execs : List String) (e : PyErr)
  | fatal (e : PyErr)
deriving Repr

/-- The body of `for feed, values in config['data'].items()`
(main.py lines 197-261) for one feed. -/
def runFeed (env : Env) (feed : String) (v : FeedCfg) : FeedStep :=
  match lookupD v "RemoveOnlyBefore" with
  | Option.none => FeedStep.fatal (PyErr.keyError "RemoveOnlyBefore")
  | some rob =>
    let a0 : Audit := { feed := feed, all_removed_before := rob, is_test := env.test }
    if env.commitOk then
      match lookupD v "Schema" with
      | Option.none => FeedStep.fatal (PyErr.keyError "Schema")
      | some sch =>
        match lookupD v "TableName" with
        | Option.none => FeedStep.fatal (PyErr.keyError "TableName")
        | some tbl =>
          match lookupD v "PartitionedBy" with
          | Option.none => FeedStep.fatal (PyErr.keyError "PartitionedBy")
          | some part =>
            let dropSql := mkDropSql (pyStr sch) (pyStr tbl) (pyStr part) (pyStr rob)
            let selSql := mkSelectSql (pyStr part) (pyStr sch) (pyStr tbl) (pyStr rob)
            match DBConnection.select env.store selSql with
            | Except.error e =>
              FeedStep.aborted { a0 with run_status := some "failed" } [] e
            | Except.ok rows =>
              let a1 := { a0 with removed_count := some rows.length,
                                  removed_list := some (sortInts rows) }
              if env.test then
                FeedStep.ok
                  { a1 with alter_status := some "success", run_status := some "success" } []
              else
                match DBConnection.execute env.store dropSql with
                | Except.ok ExecResult.resultObj =>
                  FeedStep.ok
                    { a1 with alter_status := some "success", run_status := some "success" }
                    [dropSql]
                | Except.ok ExecResult.falseSentinel =>
                  FeedStep.ok { a1 with alter_status := some "failed" } [dropSql]
                | Except.error e =>
                  FeedStep.aborted { a1 with run_status := some "failed" } [dropSql] e
    else FeedStep.fatal (PyErr.exc "audit insert commit failed")

/-- What the feed loop produced: the SQL texts passed to the data
gateway's execute, the committed audit rows, and whether the loop
finished or aborted with a raised exception. -/
structure LoopOut where
  execLog : List String
  audits : List Audit
  outcome : Except PyErr Unit
deriving Repr

/-- The feed loop: an aborted or fatal feed stops the run (the raised
exception propagates out of main, skipping the remaining feeds). -/
def runFeeds (env : Env) : List (String × FeedCfg) → LoopOut
  | [] => { execLog := [], audits := [], outcome := Except.ok () }
  | (f, v) :: rest =>
    match runFeed env f v with
    | FeedStep.ok a ex =>
      let r := runFeeds env rest
      { execLog := ex ++ r.execLog, audits := a :: r.audits, outcome := r.outcome }
    | FeedStep.aborted a ex e => { execLog := ex, audits := [a], outcome := Except.error e }
    | FeedStep.fatal e => { execLog := [], audits := [], outcome := Except.error e }

/-- Observable setup steps of main before the feed loop. -/
inductive Event where
  | sshConfigInit
  | dataDbConfigInit
  | auditDbConfigInit
  | sshConnect
  | dataDbConnect
  | auditDbConnect
  | createAuditTable
  | closeData
  | closeAudit
  | closeSsh
  | emailSend
deriving Repr, DecidableEq

/-- The keys main reads from config['ssh'] (lines 136-142). -/
def sshKeys : List String := ["host", "port", "username", "password", "auth_key"]

/-- The keys main reads from config['database'] and config['audit']
(lines 144-170). -/
def dbKeys : List String :=
  ["delicate", "host", "port", "database", "username", "password",
   "auth_file", "query", "stream", "echo"]

/-- config[name] expected to be a plain section dict. -/
def getPlain (config : Config) (name : String) : Except PyErr (List (String × Value)) :=
  match indexD config name with
  | Except.error e => Except.error e
  | Except.ok (TopVal.plain d) => Except.ok d
  | Except.ok _ => Except.error (PyErr.typeError (name ++ " section is not a dict"))

/-- d[k] for each listed key (KeyError on the first absent one), as the
keyword-argument expressions of the config constructors evaluate. -/
def requireKeys (d : List (String × Value)) : List String → Except PyErr Unit
  | [] => Except.ok ()
  | k :: ks =>
    match lookupD d k with
    | Option.none => Except.error (PyErr.keyError k)
    | some _ => requireKeys d ks

/-- main.py lines 135-195: build the three config objects, open the SSH
tunnel and client, create the two database connections, and create the
audit table class and tables, in source order, stopping at the first
raised exception.  Returns the setup events that happened. -/
def setupPhase (env : Env) (cfg : Config) : List Event × Except PyErr Unit :=
  match (do let d ← getPlain cfg "ssh"; requireKeys d sshKeys : Except PyErr Unit) with
  | Except.error e => ([], Except.error e)
  | Except.ok _ =>
  match (do let d ← getPlain cfg "database"; requireKeys d dbKeys : Except PyErr Unit) with
  | Except.error e => ([Event.sshConfigInit], Except.error e)
  | Except.ok _ =>
  match (do let d ← getPlain cfg "audit"; requireKeys d dbKeys : Except PyErr Unit) with
  | Except.error e => ([Event.sshConfigInit, Event.dataDbConfigInit], Except.error e)
  | Except.ok _ =>
    let evs3 := [Event.sshConfigInit, Event.dataDbConfigInit, Event.auditDbConfigInit]
    if env.sshOk then
      if env.dataDbOk then
        if env.auditDbOk then
          match (do let d ← getPlain cfg "audit"
                    requireKeys d ["table", "schema"] : Except PyErr Unit) with
          | Except.error e =>
            (evs3 ++ [Event.sshConnect, Event.dataDbConnect, Event.auditDbConnect],
             Except.error e)
          | Except.ok _ =>
            if env.createOk then
              (evs3 ++ [Event.sshConnect, Event.dataDbConnect, Event.auditDbConnect,
                        Event.createAuditTable], Except.ok ())
            else
              (evs3 ++ [Event.sshConnect, Event.dataDbConnect, Event.auditDbConnect],
               Except.error (PyErr.exc "create_tables failed"))
        else (evs3 ++ [Event.sshConnect, Event.dataDbConnect],
              Except.error (PyErr.exc "audit engine failed"))
      else (evs3 ++ [Event.sshConnect], Except.error (PyErr.exc "data engine failed"))
    else (evs3, Except.error (PyErr.exc "ssh connect failed"))

/-- Everything main did: setup events, SQL texts passed to the data
gateway's execute, committed audit rows, and the final outcome. -/
structure RunOut where
  events : List Event
  execLog : List String
  audits : List Audit
  outcome : Except PyErr Unit
deriving Repr

/-- main.py lines 197-300 for a non-empty validated feeds dict: run the
feed loop; an exception propagates out of main (closing and email are
skipped — the documented resource leak), while normal completion closes
the connections and attempts the summary email. -/
def loopPhase (env : Env) (evs : List Event) (feeds : List (String × FeedCfg)) : RunOut :=
  match runFeeds env feeds with
  | { execLog := ex, audits := rows, outcome := Except.error e } =>
    { events := evs, execLog := ex, audits := rows, outcome := Except.error e }
  | { execLog := ex, audits := rows, outcome := Except.ok _ } =>
    { events := evs ++ [Event.closeData, Event.closeAudit, Event.closeSsh, Event.emailSend],
      execLog := ex, audits := rows, outcome := Except.ok () }

/-- main.py lines 127-300, main (after the JSON file is loaded):
validate the config; `if not config: return` tests the truthiness of the
WHOLE top-level dict (which still holds the ssh/database/... sections,
so it is never empty here); then set up all connections, iterate the
feeds, and on normal completion close the connections and send the
summary email (whose own failures are swallowed). -/
def mainModel (env : Env) (config : Config) : RunOut :=
  match validate_configs env config with
  | Except.error e =>
    { events := [], execLog := [], audits := [], outcome := Except.error e }
  | Except.ok cfg =>
    if cfg.isEmpty then
      { events := [], execLog := [], audits := [], outcome := Except.ok () }
    else
      match setupPhase env cfg with
      | (evs, Except.error e) =>
        { events := evs, execLog := [], audits := [], outcome := Except.error e }
      | (evs, Except.ok _) =>
        match indexD cfg "data" with
        | Except.error e =>
          { events := evs, execLog := [], audits := [], outcome := Except.error e }
        | Except.ok (TopVal.dataResult Option.none) =>
          { events := evs, execLog := [], audits := [],
            outcome := Except.error (PyErr.attributeError "bool object has no attribute items") }
        | Except.ok (TopVal.plain _) =>
          { events := evs, execLog := [], audits := [],
            outcome := Except.error (PyErr.typeError "feed values are not dicts") }
        | Except.ok (TopVal.dataResult (some feeds)) => loopPhase env evs feeds
        | Except.ok (TopVal.data feeds) => loopPhase env evs feeds

/-! ### Concrete inputs used by the counterexamples and witnesses -/

/-- "today" = 2024-01-15 as a day number. -/
def t0 : Int := daysFromCivil 2024 1 15

/-- An ssh section with every key main reads. -/
def sshSec : List (String × Value) :=
  [("host", Value.str "10.0.0.1"), ("port", Value.int 22), ("username", Value.str "u"),
   ("password", Value.str "pw"), ("auth_key", Value.none)]

/-- A database section with every key main reads. -/
def dbSec : List (String × Value) :=
  [("delicate", Value.str "postgresql"), ("host", Value.str "dbh"), ("port", Value.int 5432),
   ("database", Value.str "d"), ("username", Value.str "u"), ("password", Value.str "pw"),
   ("auth_file", Value.none), ("query", Value.dict 0), ("stream", Value.bool false),
   ("echo", Value.bool false)]

/-- An audit section: the database keys plus table and schema. -/
def auditSec : List (String × Value) :=
  dbSec ++ [("table", Value.str "audits"), ("schema", Value.str "aud")]

/-- An email section with every key main reads. -/
def emailSec : List (String × Value) :=
  [("template", Value.str "t.html"), ("username", Value.str "u"), ("password", Value.str "pw"),
   ("server", Value.str "smtp"), ("port", Value.int 587), ("subject", Value.str "s"),
   ("recipients", Value.list 1), ("attachments", Value.none)]

/-- An environment in which every external system cooperates,
running feed "all" in non-test mode on 2024-01-15. -/
def envAllOk : Env :=
  { test := false, feedArg := "all", todayRD := t0, store := fun _ => StoreOutcome.ok [],
    sshOk := true, dataDbOk := true, auditDbOk := true, createOk := true, commitOk := true }

/-- Data section whose only feed has an empty TableName, so validation
drops it and no feed survives. -/
def dataC1 : DataCfg :=
  [("F", [("Schema", Value.str "s"), ("TableName", Value.str ""),
          ("RetentionPeriodInDays", Value.int 7), ("PartitionedBy", Value.str "p")])]

/-- A complete loaded config whose data section validates to no feeds. -/
def cfgC1 : Config :=
  [("ssh", TopVal.plain sshSec), ("database", TopVal.plain dbSec),
   ("audit", TopVal.plain auditSec), ("data", TopVal.data dataC1),
   ("email", TopVal.plain emailSec)]

/-- Data section for C3: feed F has RetentionPeriodInDays present but
None (a missing value), feed G is fully valid. -/
def dataC3 : DataCfg :=
  [("F", [("Schema", Value.str "s"), ("TableName", Value.str "t"),
          ("RetentionPeriodInDays", Value.none), ("PartitionedBy", Value.str "p")]),
   ("G", [("Schema", Value.str "s"), ("TableName", Value.str "t2"),
          ("RetentionPeriodInDays", Value.int 7), ("PartitionedBy", Value.str "p")])]

/-- Data section for C3: feed F lacks the RetentionPeriodInDays key
entirely; feed G is fully valid. -/
def dataC3b : DataCfg :=
  [("F", [("Schema", Value.str "s"), ("TableName", Value.str "t"),
          ("PartitionedBy", Value.str "p")]),
   ("G", [("Schema", Value.str "s"), ("TableName", Value.str "t2"),
          ("RetentionPeriodInDays", Value.int 7), ("PartitionedBy", Value.str "p")])]

/-- Data section for C6: a feed whose retention period is the negative
integer -1. -/
def dataC6 : DataCfg :=
  [("F", [("Schema", Value.str "s"), ("TableName", Value.str "t"),
          ("RetentionPeriodInDays", Value.int (-1)), ("PartitionedBy", Value.str "p")])]

/-- The C6 feed as validation leaves it: still in the run, with a cutoff
two days in the FUTURE (2024-01-17). -/
def dataC6out : DataCfg :=
  [("F", [("Schema", Value.str "s"), ("TableName", Value.str "t"),
          ("RetentionPeriodInDays", Value.int (-1)), ("PartitionedBy", Value.str "p"),
          ("RemoveOnlyBefore", Value.int 20240117)])]

/-- Data section for C5: one valid feed with a 7-day retention. -/
def dataC5 : DataCfg :=
  [("F", [("Schema", Value.str "s"), ("TableName", Value.str "t"),
          ("RetentionPeriodInDays", Value.int 7), ("PartitionedBy", Value.str "p")])]

/-- The C5 feed after validation: cutoff 20240109. -/
def feedC5out : FeedCfg :=
  [("Schema", Value.str "s"), ("TableName", Value.str "t"),
   ("RetentionPeriodInDays", Value.int 7), ("PartitionedBy", Value.str "p"),
   ("RemoveOnlyBefore", Value.int 20240109)]

/-- A default-constructed DBConfig. -/
def dbCfg0 : DBConfig := {}

/-- An EmailConfig as main constructs it. -/
def emCfg0 : EmailConfig := { username := Value.str "u", password := Value.str "pw" }

/-- An SSHConfig with host "h" and port 22. -/
def sshCfg0 : SSHConfig :=
  { host := Value.str "h", port := Value.int 22, username := Value.str "u",
    auth_key := Value.none, password := Value.none }

/-- A validated feed dict as the loop sees it (cutoff 20240109). -/
def feed10 : FeedCfg :=
  [("Schema", Value.str "s"), ("TableName", Value.str "t"),
   ("RetentionPeriodInDays", Value.int 7), ("PartitionedBy", Value.str "p"),
   ("RemoveOnlyBefore", Value.int 20240109)]

/-- The drop statement the loop builds for feed10. -/
def dropSql10 : String := mkDropSql "s" "t" "p" "20240109"

/-- A data store that fails the drop statement with a SQLAlchemyError
and answers every other query with one partition row. -/
def store10 : String → StoreOutcome :=
  fun s => if s = dropSql10 then StoreOutcome.dbError "boom" else StoreOutcome.ok [20240101]

/-- envAllOk with the store10 data store. -/
def env10 : Env := { envAllOk with store := store10 }

/-- A fully valid one-feed data section for the C4 witness. -/
def dataOk : DataCfg :=
  [("F", [("Schema", Value.str "s"), ("TableName", Value.str "t"),
          ("RetentionPeriodInDays", Value.int 7), ("PartitionedBy", Value.str "p")])]

/-- A complete loaded config with the valid data section. -/
def cfgOk : Config :=
  [("ssh", TopVal.plain sshSec), ("database", TopVal.plain dbSec),
   ("audit", TopVal.plain auditSec), ("data", TopVal.data dataOk),
   ("email", TopVal.plain emailSec)]

/-- envAllOk with the test flag set. -/
def envTest : Env := { envAllOk with test := true }

/-- An email environment where exactly one of the two attachment files
is readable and the SMTP session succeeds. -/
def emailEnv9 : EmailEnv :=
  { username := "u", readFile := fun a => if a = "good.csv" then some "data" else Option.none,
    smtp := SmtpOutcome.ok }

/-! ### Association-list and validation-pipeline lemmas -/

theorem lookupD_setD_self {α : Type} (d : List (String × α)) (k : String) (v : α) :
    lookupD (setD d k v) k = some v := by
  induction d with
  | nil => simp [setD, lookupD]
  | cons p rest ih =>
    obtain ⟨k2, v2⟩ := p
    by_cases h : k2 = k
    · simp [setD, lookupD, h]
    · simp [setD, lookupD, h, ih]

theorem lookupD_setD_ne {α : Type} (d : List (String × α)) (k k2 : String) (v : α)
    (h : k ≠ k2) : lookupD (setD d k v) k2 = lookupD d k2 := by
  induction d with
  | nil => simp [setD, lookupD, h]
  | cons p rest ih =>
    obtain ⟨k3, v3⟩ := p
    by_cases h3 : k3 = k
    · subst h3
      simp [setD, lookupD, h]
    · simp [setD, lookupD, h3, ih]

theorem popD_mem {α : Type} {d d2 : List (String × α)} {k : String} {x : String × α}
    (hpop : popD d k = Except.ok d2) (hx : x ∈ d2) : x ∈ d := by
  induction d generalizing d2 with
  | nil => simp [popD] at hpop
  | cons p rest ih =>
    obtain ⟨k2, v2⟩ := p
    by_cases h : k2 = k
    · simp [popD, h] at hpop
      subst hpop
      exact List.mem_cons_of_mem _ hx
    · simp only [popD, if_neg h] at hpop
      cases hrest : popD rest k with
      | error e => rw [hrest] at hpop; cases hpop
      | ok r =>
        rw [hrest] at hpop
        injection hpop with hpop
        subst hpop
        rcases List.mem_cons.mp hx with h1 | h1
        · exact h1 ▸ List.mem_cons_self _ _
        · exact List.mem_cons_of_mem _ (ih hrest h1)

theorem keysOf_mem {α : Type} {d : List (String × α)} {y : String} :
    y ∈ keysOf d ↔ ∃ v, (y, v) ∈ d := by
  constructor
  · intro h
    rcases List.mem_map.mp h with ⟨⟨a, b⟩, hm, he⟩
    exact ⟨b, by simpa [← he] using hm⟩
  · rintro ⟨v, hv⟩
    exact List.mem_map.mpr ⟨(y, v), hv, rfl⟩

theorem popD_keys_sub {α : Type} {d d2 : List (String × α)} {k y : String}
    (hpop : popD d k = Except.ok d2) (hy : y ∈ keysOf d2) : y ∈ keysOf d := by
  rcases keysOf_mem.mp hy with ⟨v, hv⟩
  exact keysOf_mem.mpr ⟨v, popD_mem hpop hv⟩

theorem popD_not_mem {α : Type} {d d2 : List (String × α)} {k : String}
    (hnd : (keysOf d).Nodup) (hpop : popD d k = Except.ok d2) : k ∉ keysOf d2 := by
  induction d generalizing d2 with
  | nil => simp [popD] at hpop
  | cons p rest ih =>
    obtain ⟨k2, v2⟩ := p
    have hnd2 : k2 ∉ keysOf rest ∧ (keysOf rest).Nodup := by
      simpa [keysOf] using hnd
    by_cases h : k2 = k
    · simp [popD, h] at hpop
      subst hpop
      exact h ▸ hnd2.1
    · simp only [popD, if_neg h] at hpop
      cases hrest : popD rest k with
      | error e => rw [hrest] at hpop; cases hpop
      | ok r =>
        rw [hrest] at hpop
        injection hpop with hpop
        subst hpop
        intro hk
        rcases List.mem_cons.mp hk with h1 | h1
        · exact h (h1.symm)
        · exact ih hnd2.2 hrest h1

theorem popD_nodup {α : Type} {d d2 : List (String × α)} {k : String}
    (hnd : (keysOf d).Nodup) (hpop : popD d k = Except.ok d2) : (keysOf d2).Nodup := by
  induction d generalizing d2 with
  | nil => simp [popD] at hpop
  | cons p rest ih =>
    obtain ⟨k2, v2⟩ := p
    have hnd2 : k2 ∉ keysOf rest ∧ (keysOf rest).Nodup := by
      simpa [keysOf] using hnd
    by_cases h : k2 = k
    · simp [popD, h] at hpop
      subst hpop
      exact hnd2.2
    · simp only [popD, if_neg h] at hpop
      cases hrest : popD rest k with
      | error e => rw [hrest] at hpop; cases hpop
      | ok r =>
        rw [hrest] at hpop
        injection hpop with hpop
        subst hpop
        refine List.nodup_cons.mpr ⟨fun hk => ?_, ih hnd2.2 hrest⟩
        exact hnd2.1 (popD_keys_sub hrest hk)

theorem doPops_mem {α : Type} {ks : List String} {d out : List (String × α)} {x : String × α}
    (hdo : doPops d ks = Except.ok out) (hx : x ∈ out) : x ∈ d := by
  induction ks generalizing d with
  | nil =>
    simp only [doPops, Except.ok.injEq] at hdo
    rw [hdo]
    exact hx
  | cons k rest ih =>
    simp only [doPops] at hdo
    cases hpop : popD d k with
    | error e => rw [hpop] at hdo; cases hdo
    | ok d2 =>
      simp only [hpop] at hdo
      exact popD_mem hpop (ih hdo)

theorem doPops_not_mem {α : Type} {ks : List String} {d out : List (String × α)} {k : String}
    (hnd : (keysOf d).Nodup) (hdo : doPops d ks = Except.ok out) (hk : k ∈ ks) :
    k ∉ keysOf out := by
  induction ks generalizing d with
  | nil => cases hk
  | cons k0 rest ih =>
    simp only [doPops] at hdo
    cases hpop : popD d k0 with
    | error e => rw [hpop] at hdo; cases hdo
    | ok d2 =>
      simp only [hpop] at hdo
      rcases List.mem_cons.mp hk with h1 | h1
      · subst h1
        intro hmem
        rcases keysOf_mem.mp hmem with ⟨v, hv⟩
        exact popD_not_mem hnd hpop (keysOf_mem.mpr ⟨v, doPops_mem hdo hv⟩)
      · exact ih (popD_nodup hnd hpop) hdo h1

theorem goValidate_keys {t : Int} {cfg c2 : DataCfg} {keys : List String}
    (hgo : goValidate t cfg = Except.ok (c2, keys)) : keysOf c2 = keysOf cfg := by
  induction cfg generalizing c2 keys with
  | nil =>
    simp only [goValidate, Except.ok.injEq, Prod.mk.injEq] at hgo
    rw [← hgo.1]
  | cons p rest ih =>
    obtain ⟨k, v⟩ := p
    simp only [goValidate] at hgo
    cases hstep : validateFeedStep t v with
    | error e => rw [hstep] at hgo; cases hgo
    | ok pr =>
      obtain ⟨v2, n⟩ := pr
      simp only [hstep] at hgo
      cases hrest : goValidate t rest with
      | error e => rw [hrest] at hgo; cases hgo
      | ok pr2 =>
        obtain ⟨rest2, keys2⟩ := pr2
        simp only [hrest, Except.ok.injEq, Prod.mk.injEq] at hgo
        obtain ⟨hc, hk2⟩ := hgo
        rw [← hc]
        have hih := ih hrest
        simp only [keysOf, List.map_cons] at hih ⊢
        rw [hih]

theorem goValidate_mem {t : Int} {cfg c2 : DataCfg} {keys : List String} {k : String}
    {v2 : FeedCfg} (hgo : goValidate t cfg = Except.ok (c2, keys)) (hm : (k, v2) ∈ c2) :
    ∃ v n, (k, v) ∈ cfg ∧ validateFeedStep t v = Except.ok (v2, n) ∧ (n ≠ 0 → k ∈ keys) := by
  induction cfg generalizing c2 keys with
  | nil =>
    simp [goValidate] at hgo
    rw [hgo.1] at hm
    cases hm
  | cons p rest ih =>
    obtain ⟨k0, v0⟩ := p
    simp only [goValidate] at hgo
    cases hstep : validateFeedStep t v0 with
    | error e => rw [hstep] at hgo; cases hgo
    | ok pr =>
      obtain ⟨v02, n0⟩ := pr
      simp only [hstep] at hgo
      cases hrest : goValidate t rest with
      | error e => rw [hrest] at hgo; cases hgo
      | ok pr2 =>
        obtain ⟨rest2, keys2⟩ := pr2
        simp only [hrest, Except.ok.injEq, Prod.mk.injEq] at hgo
        obtain ⟨hc, hk2⟩ := hgo
        rw [← hk2]
        rw [← hc] at hm
        rcases List.mem_cons.mp hm with hh | hh
        · injection hh with hha hhb
          subst hha
          subst hhb
          refine ⟨v0, n0, List.mem_cons_self _ _, hstep, fun hn => ?_⟩
          exact List.mem_append_left _ (List.mem_replicate.mpr ⟨hn, rfl⟩)
        · rcases ih hrest hh with ⟨v, n, hin, hs, himp⟩
          exact ⟨v, n, List.mem_cons_of_mem _ hin, hs,
            fun hn => List.mem_append_right _ (himp hn)⟩

theorem validateFeedStep_zero {t : Int} {v v2 : FeedCfg}
    (h : validateFeedStep t v = Except.ok (v2, 0)) :
    ∃ rv, lookupD v "RetentionPeriodInDays" = some rv ∧
      pyEqZero rv = false ∧ isInstInt rv = true ∧
      v2 = setD v "RemoveOnlyBefore" (Value.int (removeOnlyBefore t (toPyInt rv))) := by
  unfold validateFeedStep at h
  cases hlk : lookupD v "RetentionPeriodInDays" with
  | none => rw [hlk] at h; cases h
  | some rv =>
    simp only [hlk] at h
    by_cases hguard : (pyEqZero rv || !(isInstInt rv)) = true
    · simp only [hguard, if_true, Except.ok.injEq, Prod.mk.injEq] at h
      cases h.2
    · have hguardf : (pyEqZero rv || !(isInstInt rv)) = false := by
        simpa using hguard
      simp only [hguardf, Bool.false_eq_true, if_false, Except.ok.injEq, Prod.mk.injEq] at h
      rcases Bool.or_eq_false_iff.mp hguardf with ⟨e1, e2⟩
      refine ⟨rv, rfl, e1, by simpa using e2, h.1.symm⟩

theorem validate_core_mem {t : Int} {cfg out : DataCfg} {k : String} {v2 : FeedCfg}
    (hnd : (keysOf cfg).Nodup)
    (hok : validate_core t cfg = Except.ok (some out))
    (hm : (k, v2) ∈ out) :
    ∃ rv, lookupD v2 "RetentionPeriodInDays" = some rv ∧
      pyEqZero rv = false ∧ isInstInt rv = true ∧
      lookupD v2 "RemoveOnlyBefore" = some (Value.int (removeOnlyBefore t (toPyInt rv))) := by
  unfold validate_core at hok
  cases hgo : goValidate t cfg with
  | error e => rw [hgo] at hok; cases hok
  | ok pr =>
    obtain ⟨c2, keys⟩ := pr
    simp only [hgo] at hok
    cases hdo : doPops c2 keys with
    | error e => rw [hdo] at hok; cases hok
    | ok out2 =>
      simp only [hdo] at hok
      by_cases hemp : out2.isEmpty = true
      · simp only [hemp, if_true, Except.ok.injEq] at hok
        cases hok
      · have hempf : out2.isEmpty = false := by simpa using hemp
        simp only [hempf, Bool.false_eq_true, if_false, Except.ok.injEq, Option.some.injEq] at hok
        rw [← hok] at hm
        have hnd2 : (keysOf c2).Nodup := (goValidate_keys hgo).symm ▸ hnd
        have hmc2 : (k, v2) ∈ c2 := doPops_mem hdo hm
        rcases goValidate_mem hgo hmc2 with ⟨v, n, hin, hstep, himp⟩
        have hn0 : n = 0 := by
          by_contra hne
          have hkk : k ∈ keys := himp hne
          have : k ∉ keysOf out2 := doPops_not_mem hnd2 hdo hkk
          exact this (keysOf_mem.mpr ⟨v2, hm⟩)
        subst hn0
        rcases validateFeedStep_zero hstep with ⟨rv, hlk, hz, hint, hv2⟩
        refine ⟨rv, ?_, hz, hint, ?_⟩
        · rw [hv2]
          rw [lookupD_setD_ne _ _ _ _ (by decide)]
          exact hlk
        · rw [hv2]
          exact lookupD_setD_self _ _ _

/-! ### Claim theorems -/

/-- C1: the claim says that when no feed survives validation, main ends
early without error and without constructing or connecting any SSH
tunnel or database connection.  The code instead stores the `False`
returned by validate_feeds_config inside `config['data']` and tests
`if not config:` on the still-populated top-level dict, so the guard
never fires: on a complete config whose only feed is dropped, main
builds all three config objects, connects the SSH tunnel and both
database connections, creates the audit table, and then crashes with
AttributeError when it iterates `False.items()`. -/
theorem C1_empty_data_still_connects :
    mainModel envAllOk cfgC1 =
      { events := [Event.sshConfigInit, Event.dataDbConfigInit, Event.auditDbConfigInit,
                   Event.sshConnect, Event.dataDbConnect, Event.auditDbConnect,
                   Event.createAuditTable],
        execLog := [], audits := [],
        outcome := Except.error (PyErr.attributeError "bool object has no attribute items") } := by
  rfl

/-- C2: the claim says update_config with a known field name and a valid
value sets that field.  For DBConfig and EmailConfig the source calls
`getattr(self, key)(value)`, i.e. it calls the property VALUE, which is
never callable, so every known-key update raises the wrapped ValueError
and no field is ever set; unknown keys do raise the invalid-key error;
and for SSHConfig a port update runs the buggy setter, which stores the
value in the HOST field. -/
theorem C2_update_config_never_sets :
    DBConfig.update_config dbCfg0 [("host", Value.str "h2")] =
      Except.error (PyErr.valueError "Error setting host: str object is not callable") ∧
    EmailConfig.update_config emCfg0 [("server", Value.str "s2")] =
      Except.error (PyErr.valueError "Error setting server: str object is not callable") ∧
    DBConfig.update_config dbCfg0 [("bogus", Value.str "x")] =
      Except.error (PyErr.keyError "Invalid configuration key: bogus") ∧
    SSHConfig.update_config sshCfg0 [("port", Value.int 8022)] =
      Except.ok { sshCfg0 with host := Value.int 8022 } := by
  exact ⟨rfl, rfl, rfl, rfl⟩

/-- C3: the claim says a feed missing a required field is dropped
without failing the run and the remaining feeds are still processed.
When the missing field is RetentionPeriodInDays the run instead
crashes: a present-but-None value makes the loop append the feed key to
keys_to_remove twice (lines 90 and 101), so the second `config.pop`
raises KeyError; a fully absent key makes line 95
(`value["RetentionPeriodInDays"]`) raise KeyError directly.  Either way
validation raises, the run fails, and the valid feed G is never
processed. -/
theorem C3_missing_retention_crashes_run :
    validate_feeds_config t0 "all" dataC3 = Except.error (PyErr.keyError "F") ∧
    validate_feeds_config t0 "all" dataC3b =
      Except.error (PyErr.keyError "RetentionPeriodInDays") := by
  exact ⟨rfl, rfl⟩

/-- C5: every feed surviving validation carries
RemoveOnlyBefore = today minus (RetentionPeriodInDays - 1) days as the
YYYYMMDD integer (8 digits for four-digit years), computed by
removeOnlyBefore exactly as main.py lines 103-105 do.  The witness
instantiates RetentionPeriodInDays = 7 and today = 2024-01-15 and
checks the value 20240109. -/
theorem C5_remove_only_before (t : Int) (feedArg : String) (cfg out : DataCfg)
    (k : String) (v2 : FeedCfg)
    (hnd : (keysOf cfg).Nodup)
    (hok : validate_feeds_config t feedArg cfg = Except.ok (some out))
    (hmem : (k, v2) ∈ out) :
    ∃ rv, lookupD v2 "RetentionPeriodInDays" = some rv ∧
      lookupD v2 "RemoveOnlyBefore" = some (Value.int (removeOnlyBefore t (toPyInt rv))) := by
  unfold validate_feeds_config at hok
  by_cases hall : feedArg = "all"
  · rw [if_pos hall] at hok
    rcases validate_core_mem hnd hok hmem with ⟨rv, h1, _, _, h4⟩
    exact ⟨rv, h1, h4⟩
  · rw [if_neg hall] at hok
    cases hlk : lookupD cfg feedArg with
    | none => rw [hlk] at hok; cases hok
    | some v =>
      simp only [hlk] at hok
      have hnd1 : (keysOf [(feedArg, v)]).Nodup := by simp [keysOf]
      rcases validate_core_mem hnd1 hok hmem with ⟨rv, h1, _, _, h4⟩
      exact ⟨rv, h1, h4⟩

/-- Witness for C5: the single feed of dataC5 (retention 7, today
2024-01-15) survives with RemoveOnlyBefore = 20240109; discharging the
hypothesis `validate_feeds_config t0 "all" dataC5 = ok (some ...)`
forces the evaluator through the date arithmetic to 20240109. -/
theorem C5_witness :
    ∃ rv, lookupD feedC5out "RetentionPeriodInDays" = some rv ∧
      lookupD feedC5out "RemoveOnlyBefore" =
        some (Value.int (removeOnlyBefore t0 (toPyInt rv))) :=
  C5_remove_only_before t0 "all" dataC5 [("F", feedC5out)] "F" feedC5out
    (by decide) (by rfl) (by simp)

/-- C6: the claim says every feed with a non-positive retention period
is excluded.  The source check is `== 0 or not isinstance(..., int)`
(main.py line 95), so the NEGATIVE integer -1 passes: the feed stays in
the run and even gets a cutoff two days in the future (20240117 for
today = 2024-01-15), although the code's own log message states the
allowed minimum is 1. -/
theorem C6_negative_retention_survives :
    validate_feeds_config t0 "all" dataC6 = Except.ok (some dataC6out) := by
  rfl

/-- C7: a statement whose execution fails at the data store (an
SQLAlchemyError) makes DBConnection.execute return the False sentinel
without raising, while DBConnection.select re-raises the error of a
failing read. -/
theorem C7_execute_sentinel_select_raises (store : String → StoreOutcome) (sql : String)
    (m : String) (h : store sql = StoreOutcome.dbError m) :
    DBConnection.execute store sql = Except.ok ExecResult.falseSentinel ∧
    DBConnection.select store sql = Except.error (PyErr.sqlError m) := by
  unfold DBConnection.execute DBConnection.select
  rw [h]
  exact ⟨rfl, rfl⟩

/-- Witness for C7 at a concrete store that fails every statement. -/
theorem C7_witness :
    DBConnection.execute (fun _ => StoreOutcome.dbError "down") "DROP X" =
      Except.ok ExecResult.falseSentinel ∧
    DBConnection.select (fun _ => StoreOutcome.dbError "down") "DROP X" =
      Except.error (PyErr.sqlError "down") :=
  C7_execute_sentinel_select_raises (fun _ => StoreOutcome.dbError "down") "DROP X" "down" rfl

/-- C8: the claim says assigning the port of every connection-config
object validates the 1..65535 range and on success updates the port
leaving the host unchanged.  SSHConfig's setter does neither: it has no
range check (70000 is accepted) and its body is `self.__host = port`,
so the assignment overwrites the HOST and leaves the port untouched.
DBConfig's setter, by contrast, conforms. -/
theorem C8_ssh_port_setter_bug :
    SSHConfig.set_port sshCfg0 (Value.int 8022) =
      Except.ok { sshCfg0 with host := Value.int 8022 } ∧
    SSHConfig.set_port sshCfg0 (Value.int 70000) =
      Except.ok { sshCfg0 with host := Value.int 70000 } ∧
    DBConfig.set_port dbCfg0 (Value.int 70000) =
      Except.error (PyErr.valueError "Port must be an integer between 1 and 65535.") ∧
    DBConfig.set_port dbCfg0 (Value.int 8022) = Except.ok { dbCfg0 with port := Value.int 8022 } := by
  exact ⟨rfl, rfl, rfl, rfl⟩

/-! ### Lemmas about the feed loop in test mode -/

theorem runFeed_test_char (env : Env) (f : String) (v : FeedCfg) (h : env.test = true) :
    (∀ a ex, runFeed env f v = FeedStep.ok a ex →
      ex = [] ∧ a.alter_status = some "success") ∧
    (∀ a ex e, runFeed env f v = FeedStep.aborted a ex e →
      ex = [] ∧ a.removed_count = Option.none) := by
  constructor
  · intro a ex heq
    simp only [runFeed] at heq
    repeat' split at heq
    all_goals
      first
        | exact absurd h (by assumption)
        | (cases heq; try exact ⟨rfl, rfl⟩)
  · intro a ex e heq
    simp only [runFeed] at heq
    repeat' split at heq
    all_goals
      first
        | exact absurd h (by assumption)
        | (cases heq; try exact ⟨rfl, rfl⟩)

theorem runFeeds_test (env : Env) (h : env.test = true) (feeds : List (String × FeedCfg)) :
    (runFeeds env feeds).execLog = [] ∧
    ∀ a ∈ (runFeeds env feeds).audits,
      a.removed_count ≠ Option.none → a.alter_status = some "success" := by
  induction feeds with
  | nil =>
    refine ⟨rfl, fun a ha => ?_⟩
    cases ha
  | cons p rest ih =>
    obtain ⟨f, v⟩ := p
    have hc := runFeed_test_char env f v h
    cases hstep : runFeed env f v with
    | ok a ex =>
      rcases hc.1 a ex hstep with ⟨hex, hal⟩
      simp only [runFeeds, hstep]
      refine ⟨by simp [hex, ih.1], fun b hb => ?_⟩
      rcases List.mem_cons.mp hb with h1 | h1
      · subst h1; exact fun _ => hal
      · exact ih.2 b h1
    | aborted a ex e =>
      rcases hc.2 a ex e hstep with ⟨hex, hrc⟩
      simp only [runFeeds, hstep]
      refine ⟨hex, fun b hb => ?_⟩
      rcases List.mem_cons.mp hb with h1 | h1
      · subst h1; exact fun hcon => absurd hrc hcon
      · cases h1
    | fatal e =>
      refine ⟨?_, ?_⟩
      · simp [runFeeds, hstep]
      · intro a ha
        simp only [runFeeds, hstep] at ha
        cases ha

/-- The loopPhase wrapper changes only the event list: its execLog and
audit rows are those of the feed loop itself. -/
theorem loopPhase_fields (env : Env) (evs : List Event) (feeds : List (String × FeedCfg)) :
    (loopPhase env evs feeds).execLog = (runFeeds env feeds).execLog ∧
    (loopPhase env evs feeds).audits = (runFeeds env feeds).audits := by
  unfold loopPhase
  cases hr : runFeeds env feeds with
  | mk ex rows oc =>
    cases oc
    · constructor <;> rfl
    · constructor <;> rfl

/-- C4: with the test flag set, main never passes the generated
ALTER TABLE ... DROP PARTITION statement (nor any other statement) to
the data gateway's execute, and every audit row that reached the drop
stage (its partition count was recorded, i.e. the select succeeded)
still carries alter_status = "success". -/
theorem C4_test_mode_no_execute (env : Env) (config : Config) (h : env.test = true) :
    (mainModel env config).execLog = [] ∧
    ∀ a ∈ (mainModel env config).audits,
      a.removed_count ≠ Option.none → a.alter_status = some "success" := by
  unfold mainModel
  repeat' split
  all_goals
    first
      | exact ⟨rfl, (fun a ha => absurd ha (List.not_mem_nil a))⟩
      | exact ⟨((loopPhase_fields _ _ _).1).trans (runFeeds_test env h _).1,
               (fun a ha => (runFeeds_test env h _).2 a
                 (((loopPhase_fields _ _ _).2) ▸ ha))⟩

/-- Witness for C4: a full test-mode run over a valid one-feed config. -/
theorem C4_witness :
    (mainModel envTest cfgOk).execLog = [] ∧
    ∀ a ∈ (mainModel envTest cfgOk).audits,
      a.removed_count ≠ Option.none → a.alter_status = some "success" :=
  C4_test_mode_no_execute envTest cfgOk rfl

/-! ### Lemmas about attachment handling -/

theorem foldl_attach_regular (env : EmailEnv) (atts : List String) (msg : Message) :
    (atts.foldl (attachOne env false) msg).attachments =
      msg.attachments ++ atts.filter (fun a => (env.readFile a).isSome) := by
  induction atts generalizing msg with
  | nil => simp
  | cons a as ih =>
    simp only [List.foldl_cons]
    cases hr : env.readFile a with
    | none =>
      rw [ih]
      simp [attachOne, hr, List.filter_cons]
    | some d =>
      rw [ih]
      simp [attachOne, hr, List.filter_cons]

theorem foldl_attach_inline (env : EmailEnv) (atts : List String) (msg : Message) :
    (atts.foldl (attachOne env true) msg).attachments = msg.attachments := by
  induction atts generalizing msg with
  | nil => rfl
  | cons a as ih =>
    simp only [List.foldl_cons]
    cases hr : env.readFile a with
    | none =>
      rw [ih]
      simp [attachOne, hr]
    | some d =>
      rw [ih]
      simp [attachOne, hr]

theorem attach_files_regular (env : EmailEnv) (msg : Message) (atts : List String) :
    (attach_files env msg atts false).attachments =
      msg.attachments ++ atts.filter (fun a => (env.readFile a).isSome) := by
  unfold attach_files
  by_cases h : atts.isEmpty = true
  · have : atts = [] := List.isEmpty_iff.mp h
    subst this
    simp
  · have h2 : atts.isEmpty = false := by simpa using h
    rw [h2]
    simp only [Bool.false_eq_true, if_false]
    exact foldl_attach_regular env atts msg

theorem attach_files_inline_keeps (env : EmailEnv) (msg : Message) (inl : List String) :
    (attach_files env msg inl true).attachments = msg.attachments := by
  unfold attach_files
  by_cases h : inl.isEmpty = true
  · rw [h]
    simp
  · have h2 : inl.isEmpty = false := by simpa using h
    rw [h2]
    simp only [Bool.false_eq_true, if_false]
    exact foldl_attach_inline env inl msg

/-- C9: send_email never propagates an exception (the SMTP except
clauses swallow every error), and when the SMTP session succeeds the
message is delivered carrying exactly the readable attachments: an
unreadable one is skipped without aborting the send. -/
theorem C9_send_email_never_raises (env : EmailEnv) (subject body : String)
    (receivers atts inl : List String) :
    (∃ r, send_email env subject body receivers atts inl = Except.ok r) ∧
    (env.smtp = SmtpOutcome.ok →
      ∃ msg, send_email env subject body receivers atts inl = Except.ok (some msg) ∧
        msg.attachments = atts.filter (fun a => (env.readFile a).isSome)) := by
  unfold send_email smtpSend
  cases hs : env.smtp with
  | ok =>
    constructor
    · exact ⟨some (create_message env subject body receivers atts inl), rfl⟩
    · intro hyp
      refine ⟨create_message env subject body receivers atts inl, rfl, ?_⟩
      unfold create_message
      rw [attach_files_inline_keeps, attach_files_regular]
      simp
  | smtpError m =>
    constructor
    · exact ⟨Option.none, rfl⟩
    · intro hyp
      cases hyp
  | otherError m =>
    constructor
    · exact ⟨Option.none, rfl⟩
    · intro hyp
      cases hyp

/-- Witness for C9: with one readable and one unreadable attachment and
a healthy SMTP server, the send returns normally and the delivered
message carries exactly the readable attachment. -/
theorem C9_witness :
    (∃ r, send_email emailEnv9 "subj" "body" ["ops"] ["good.csv", "missing.csv"] [] =
      Except.ok r) ∧
    (∃ msg, send_email emailEnv9 "subj" "body" ["ops"] ["good.csv", "missing.csv"] [] =
      Except.ok (some msg) ∧ msg.attachments = ["good.csv"]) := by
  have h := C9_send_email_never_raises emailEnv9 "subj" "body" ["ops"]
    ["good.csv", "missing.csv"] []
  refine ⟨h.1, ?_⟩
  rcases h.2 rfl with ⟨msg, h1, h2⟩
  refine ⟨msg, h1, ?_⟩
  rw [h2]
  rfl

/-- C10: in a non-test run, when the data store fails a feed's drop
statement with a SQLAlchemyError (so execute returns the False
sentinel), the loop records alter_status = "failed" for that feed,
never sets its run_status to "success" (the `continue` skips the
assignment), and goes on to process the remaining feeds: the results
for `rest` are exactly those of running the loop on `rest` alone. -/
theorem C10_execute_false_continue (env : Env) (feed : String) (v : FeedCfg)
    (rest : List (String × FeedCfg)) (rob sch tbl part : Value) (rows : List Int) (m : String)
    (htest : env.test = false) (hcommit : env.commitOk = true)
    (h1 : lookupD v "RemoveOnlyBefore" = some rob)
    (h2 : lookupD v "Schema" = some sch)
    (h3 : lookupD v "TableName" = some tbl)
    (h4 : lookupD v "PartitionedBy" = some part)
    (hsel : env.store (mkSelectSql (pyStr part) (pyStr sch) (pyStr tbl) (pyStr rob)) =
      StoreOutcome.ok rows)
    (hexec : env.store (mkDropSql (pyStr sch) (pyStr tbl) (pyStr part) (pyStr rob)) =
      StoreOutcome.dbError m) :
    ∃ a, runFeeds env ((feed, v) :: rest) =
        { execLog := mkDropSql (pyStr sch) (pyStr tbl) (pyStr part) (pyStr rob) ::
            (runFeeds env rest).execLog,
          audits := a :: (runFeeds env rest).audits,
          outcome := (runFeeds env rest).outcome } ∧
      a.alter_status = some "failed" ∧ a.run_status ≠ some "success" := by
  refine ⟨{ feed := feed, all_removed_before := rob, removed_count := some rows.length,
            removed_list := some (sortInts rows), alter_status := some "failed",
            run_status := Option.none, is_test := env.test }, ?_, rfl, ?_⟩
  · simp only [runFeeds, runFeed, h1, h2, h3, h4, hcommit, htest, DBConnection.select,
      DBConnection.execute, hsel, hexec, if_true, Bool.false_eq_true, if_false]
    rfl
  · intro hcon
    cases hcon

/-- Witness for C10: two identical feeds against a store that fails the
drop statement; the first feed's audit row reads alter_status = failed,
run_status stays unset, and the second feed is still processed. -/
theorem C10_witness :
    ∃ a, runFeeds env10 [("F", feed10), ("G", feed10)] =
        { execLog := mkDropSql (pyStr (Value.str "s")) (pyStr (Value.str "t"))
            (pyStr (Value.str "p")) (pyStr (Value.int 20240109)) ::
            (runFeeds env10 [("G", feed10)]).execLog,
          audits := a :: (runFeeds env10 [("G", feed10)]).audits,
          outcome := (runFeeds env10 [("G", feed10)]).outcome } ∧
      a.alter_status = some "failed" ∧ a.run_status ≠ some "success" :=
  C10_execute_false_continue env10 "F" feed10 [("G", feed10)]
    (Value.int 20240109) (Value.str "s") (Value.str "t") (Value.str "p") [20240101] "boom"
    rfl rfl rfl rfl rfl rfl (by rfl) (by rfl)

end HDFSRetention
